import Mathlib

/-
  Verification of the Houdini adaptor (deadline-cloud-for-houdini),
  src/deadline/houdini_adaptor/HoudiniAdaptor/adaptor.py, as a shallow
  embedding in Lean 4.  Strings are embedded as lists of characters,
  the mutable adaptor object as an explicit state record, and the
  busy-wait polling loops as recursion over explicit observation
  schedules (one observation per evaluation of the loop condition).
-/

namespace HoudiniAdaptorModel

abbrev Chars := List Char

/-- The exception kinds raised by the adaptor code: TimeoutError,
RuntimeError, HoudiniNotRunningError, KeyError, ValueError, TypeError. -/
inductive Exc where
  | timeoutErr (msg : Chars)
  | runtimeErr (msg : Chars)
  | notRunning (msg : Chars)
  | keyErr (key : Chars)
  | valueErr (msg : Chars)
  | typeErr (msg : Chars)
deriving DecidableEq, Repr

/-- JSON-like payload values appearing in init and run data. -/
inductive Value where
  | vInt (n : Int)
  | vStr (s : Chars)
  | vBool (b : Bool)
deriving DecidableEq, Repr

/-- An Action: a named command with a payload
(openjd adaptor_runtime_client Action). -/
structure Action where
  name : Chars
  payload : List (Chars × Value)
deriving DecidableEq, Repr

/-- Lookup of a key in a Python dict modelled as an association list. -/
def lookupKey (d : List (Chars × Value)) (k : Chars) : Option Value :=
  match d with
  | [] => none
  | (k2, v) :: rest => if k2 = k then some v else lookupKey rest k

/-- Python dict item assignment: replace the first binding of the key,
or append a new binding. -/
def setKey (d : List (Chars × Value)) (k : Chars) (v : Value) :
    List (Chars × Value) :=
  match d with
  | [] => [(k, v)]
  | (k2, v2) :: rest =>
    if k2 = k then (k2, v) :: rest else (k2, v2) :: setKey rest k v

/-- The LoggingSubprocess handle for the spawned hython process. -/
structure ClientInfo where
  isRunning : Bool
  returncode : Option Int
deriving DecidableEq, Repr

/-- The mutable attributes of the HoudiniAdaptor object. -/
structure AdaptorState where
  excInfo : Option Exc
  performingCleanup : Bool
  isRendering : Bool
  progress : Option Int
  statusMessage : Option Chars
  houdiniVersion : Chars
  actionQueue : List Action
  houdiniClient : Option ClientInfo
  serverUp : Bool
deriving DecidableEq, Repr

/-- The class-level defaults of HoudiniAdaptor: no exception staged, not
cleaning up, not rendering, no version, empty queue, no client, no server. -/
def initialState : AdaptorState :=
  { excInfo := none, performingCleanup := false, isRendering := false
    progress := none, statusMessage := none, houdiniVersion := []
    actionQueue := [], houdiniClient := none, serverUp := false }

/-- The _has_exception property: raises the staged exception when one is
set and cleanup is not in progress, otherwise reports False. -/
def hasException (s : AdaptorState) : Except Exc Bool :=
  match s.excInfo with
  | some e => if s.performingCleanup then .ok false else .error e
  | none => .ok false

/-- The _houdini_is_running property: a client is attached and running. -/
def houdiniIsRunning (s : AdaptorState) : Bool :=
  match s.houdiniClient with
  | some c => c.isRunning
  | none => false

/-- ActionsQueue.enqueue_action: append, or prepend when front is set. -/
def enqueueAction (s : AdaptorState) (a : Action) (front : Bool) :
    AdaptorState :=
  { s with actionQueue :=
      if front then a :: s.actionQueue else s.actionQueue ++ [a] }

/-- update_status with a progress value and a status message. -/
def updateStatusMsg (s : AdaptorState) (p : Int) (msg : Chars) :
    AdaptorState :=
  { s with progress := some p, statusMessage := some msg }

/-- update_status with only a progress value. -/
def updateStatusProgress (s : AdaptorState) (p : Int) : AdaptorState :=
  { s with progress := some p }

/-- The _check_for_exception decorator: evaluate _has_exception first
(which re-raises a staged exception) and only call the wrapped handler
when it reports False. -/
def checkForException (f : AdaptorState → Except Exc AdaptorState)
    (s : AdaptorState) : Except Exc AdaptorState :=
  match hasException s with
  | .error e => .error e
  | .ok true => .ok s
  | .ok false => f s

/-! String helpers mirroring the Python string operations used. -/

/-- Index of the first occurrence of a pattern in a text
(Python str.index and the containment tests), or none. -/
def firstIndexOf (pat : Chars) : Chars → Option Nat
  | [] => if pat.isPrefixOf ([] : Chars) then some 0 else none
  | c :: rest =>
    if pat.isPrefixOf (c :: rest) then some 0
    else (firstIndexOf pat rest).map (fun n => n + 1)

/-- Containment of a substring (the semantics of an un-anchored regex
search for a literal). -/
def containsSub (text pat : Chars) : Bool :=
  (firstIndexOf pat text).isSome

/-- Numeric value of a list of decimal digit characters. -/
def digitsVal (ds : Chars) : Nat :=
  ds.foldl (fun acc c => acc * 10 + (c.toNat - 48)) 0

/-- Strip leading and trailing space characters
(Python int() strips whitespace before parsing). -/
def stripSpaces (cs : Chars) : Chars :=
  ((cs.dropWhile (fun c => c = ' ')).reverse.dropWhile
    (fun c => c = ' ')).reverse

/-- Python int() applied to a string: optional sign followed by one or
more decimal digits (surrounding whitespace stripped); anything else
raises ValueError. -/
def pyIntOfStr (cs : Chars) : Except Exc Int :=
  let t := stripSpaces cs
  if t.head? = some '-' then
    let ds := t.tail
    if ds.isEmpty then .error (.valueErr cs)
    else if ds.all Char.isDigit then .ok (-(digitsVal ds : Int))
    else .error (.valueErr cs)
  else if t.head? = some '+' then
    let ds := t.tail
    if ds.isEmpty then .error (.valueErr cs)
    else if ds.all Char.isDigit then .ok (digitsVal ds : Int)
    else .error (.valueErr cs)
  else
    if t.isEmpty then .error (.valueErr cs)
    else if t.all Char.isDigit then .ok (digitsVal t : Int)
    else .error (.valueErr cs)

/-- Python int() applied to a payload value: ints pass through, booleans
coerce to 0 or 1, strings are parsed, anything failing raises. -/
def pyInt (v : Value) : Except Exc Int :=
  match v with
  | .vInt n => .ok n
  | .vBool b => .ok (if b then 1 else 0)
  | .vStr s => pyIntOfStr s

/-- Decimal representation of a natural number (Python str of an int). -/
def natToChars (n : Nat) : Chars := Nat.toDigits 10 n

/-- Decimal representation of an integer. -/
def intToChars (i : Int) : Chars :=
  if i < 0 then '-' :: natToChars i.natAbs else natToChars i.natAbs

/-! The output-classifier handlers of HoudiniAdaptor. -/

def progressMarker : Chars := "ALF_PROGRESS ".toList

def licenseMarker : Chars :=
  "RuntimeError: Error encountered when initializing Houdini".toList

def errMsgStart : Chars := "Houdini Encountered an Error: ".toList

/-- Body of _handle_complete: clear the rendering flag and report
progress 100. -/
def handle_complete_core (s : AdaptorState) : Except Exc AdaptorState :=
  .ok (updateStatusProgress { s with isRendering := false } 100)

/-- _handle_complete, wrapped in the _check_for_exception decorator. -/
def handle_complete (s : AdaptorState) : Except Exc AdaptorState :=
  checkForException handle_complete_core s

/-- Body of _handle_progress: locate the progress marker in the matched
text, slice the next two characters, strip a trailing percent sign, and
report the parsed integer. -/
def handle_progress_core (text : Chars) (s : AdaptorState) :
    Except Exc AdaptorState :=
  match firstIndexOf progressMarker text with
  | none => .error (.valueErr "substring not found".toList)
  | some i =>
    let loc := i + progressMarker.length
    let percent := (text.drop loc).take 2
    let percent := if percent.getLast? = some '%' then percent.take 1
      else percent
    match pyIntOfStr percent with
    | .error e => .error e
    | .ok p => .ok (updateStatusProgress s p)

/-- _handle_progress, wrapped in the _check_for_exception decorator. -/
def handle_progress (text : Chars) (s : AdaptorState) :
    Except Exc AdaptorState :=
  checkForException (handle_progress_core text) s

/-- _handle_error: stage a RuntimeError whose message is the prefix
followed by the matched line.  Not wrapped in _check_for_exception. -/
def handle_error (line : Chars) (s : AdaptorState) :
    Except Exc AdaptorState :=
  .ok { s with excInfo := some (.runtimeErr (errMsgStart ++ line)) }

/-- The message staged by _handle_license_error: the matched line plus a
licensing hint and the free disk space in MiB (floor division of the
free byte count by 1024, twice). -/
def license_error_msg (line : Chars) (freeBytes : Nat) : Chars :=
  line ++ "\n".toList ++
  ("This error is typically associated with a licensing error" ++
   " when using Houdini. Check your licensing configuration.\n").toList ++
  "Free disc space: ".toList ++ natToChars (freeBytes / 1024 / 1024) ++
  "M\n".toList

/-- _handle_license_error: always stages a RuntimeError embedding the
free disk space.  Not wrapped in _check_for_exception. -/
def handle_license_error (freeBytes : Nat) (line : Chars)
    (s : AdaptorState) : Except Exc AdaptorState :=
  .ok { s with
        excInfo := some (.runtimeErr (license_error_msg line freeBytes)) }

/-- The groups of a match of the version pattern
"HoudiniClient: Houdini Version ([0-9]+.[0-9]+)(.[0-9]+)?":
group 1 always participates, group 2 is None when absent.
A Python match object for this two-group pattern always reports two
groups, so len of groups() is the constant 2. -/
structure VersionMatch where
  group1 : Chars
  group2 : Option Chars
deriving DecidableEq, Repr

/-- _handle_houdini_version: record group 1, then, because the test
len of groups() greater than 1 is always true for the two-group
pattern, unconditionally append group 2 — which is None when the
version had no patch component, making the string concatenation raise
TypeError. -/
def handle_houdini_version (m : VersionMatch) (s : AdaptorState) :
    Except Exc AdaptorState :=
  match m.group2 with
  | some g2 => .ok { s with houdiniVersion := m.group1 ++ g2 }
  | none =>
    .error (.typeErr
      "can only concatenate str (not NoneType) to str".toList)

def versionMarker : Chars := "HoudiniClient: Houdini Version ".toList

/-- Split one or more leading decimal digits from a string. -/
def takeDigits (cs : Chars) : Chars × Chars :=
  (cs.takeWhile Char.isDigit, cs.dropWhile Char.isDigit)

/-- The groups produced by the version regex on the text after the
literal marker, for canonical version strings: the unescaped dots in
the source pattern match any character and are instantiated at the
dot of a canonical MAJOR.MINOR[.PATCH] string. -/
def version_groups_of (rest : Chars) : Option VersionMatch :=
  let p1 := takeDigits rest
  if p1.1.isEmpty then none
  else
    match p1.2 with
    | '.' :: r2 =>
      let p2 := takeDigits r2
      if p2.1.isEmpty then none
      else
        let g1 := p1.1 ++ '.' :: p2.1
        match p2.2 with
        | '.' :: r4 =>
          let p3 := takeDigits r4
          if p3.1.isEmpty then some ⟨g1, none⟩
          else some ⟨g1, some ('.' :: p3.1)⟩
        | _ => some ⟨g1, none⟩
    | _ => none

/-- Search for the version pattern in a line and return its groups. -/
def version_match (line : Chars) : Option VersionMatch :=
  match firstIndexOf versionMarker line with
  | none => none
  | some i => version_groups_of (line.drop (i + versionMarker.length))

/-! The regex callback list of _get_regex_callbacks and the line
dispatch of the external RegexHandler. -/

def lowerChars (cs : Chars) : Chars := cs.map Char.toLower

/-- Match of the completion pattern ".*Finished Rendering.*". -/
def matches_completed (line : Chars) : Bool :=
  containsSub line "Finished Rendering".toList

/-- One or more digits followed by a percent sign, at the head of the
remaining text: the maximal digit run is nonempty and is immediately
followed by the percent character. -/
def digitsThenPercent (cs : Chars) : Bool :=
  !(cs.takeWhile Char.isDigit).isEmpty &&
    (cs.dropWhile Char.isDigit).head? = some '%'

/-- Whether a predicate holds for any suffix of the text (the search of
an un-anchored pattern). -/
def anySuffix (p : Chars → Bool) : Chars → Bool
  | [] => p []
  | c :: rest => p (c :: rest) || anySuffix p rest

/-- Match of the progress pattern ".*ALF_PROGRESS ([0-9]+)%.*". -/
def matches_progress (line : Chars) : Bool :=
  anySuffix
    (fun t => progressMarker.isPrefixOf t &&
      digitsThenPercent (t.drop progressMarker.length)) line

/-- Match of the error pattern ".*Error: .*|.*\[Error\].*" with the
IGNORECASE flag: the line contains the marker with a trailing space, or
the bracketed marker, case-insensitively. -/
def matches_error (line : Chars) : Bool :=
  containsSub (lowerChars line) "error: ".toList ||
  containsSub (lowerChars line) "[error]".toList

/-- Match of the license-failure marker pattern. -/
def matches_license (line : Chars) : Bool :=
  containsSub line licenseMarker

/-- Match of the version pattern (on canonical version lines). -/
def matches_version (line : Chars) : Bool :=
  (version_match line).isSome

/-- One RegexCallback: a line predicate and the handler it fires. -/
structure RegexCallbackM where
  matchesLine : Chars → Bool
  handler : Chars → AdaptorState → Except Exc AdaptorState

/-- The callback list built by _get_regex_callbacks: completion,
progress, the error rule only when strict_error_checking is set, then
the license rule and the version rule. -/
def get_regex_callbacks (strict : Bool) (freeBytes : Nat) :
    List RegexCallbackM :=
  [ ⟨matches_completed, fun _ s => handle_complete s⟩,
    ⟨matches_progress, fun line s => handle_progress line s⟩ ] ++
  (if strict then [⟨matches_error, handle_error⟩] else []) ++
  [ ⟨matches_license, handle_license_error freeBytes⟩,
    ⟨matches_version, fun line s =>
      match version_match line with
      | some m => handle_houdini_version m s
      | none => .ok s⟩ ]

/-- Modelled from the spec at the boundary of the external openjd
RegexHandler: every callback whose pattern matches the line fires its
handler, in list order; an exception raised by a handler propagates on
the reader thread. -/
def dispatch_line (cbs : List RegexCallbackM) (line : Chars)
    (s : AdaptorState) : Except Exc AdaptorState :=
  match cbs with
  | [] => .ok s
  | cb :: rest =>
    if cb.matchesLine line then
      match cb.handler line s with
      | .error e => .error e
      | .ok s2 => dispatch_line rest line s2
    else dispatch_line rest line s

/-! The lifecycle operations: on_start, on_run, on_cleanup.  The main
thread polling loops are driven by explicit observation schedules: one
observation per evaluation of a loop condition, recording what the
concurrently-updated attributes held at that instant. -/

def requiredInitKeys : List Chars :=
  ["scene_file".toList, "render_node".toList]

/-- The optional init keys.  The source declares them as a Python set,
whose iteration order is unspecified; no claim depends on that order,
which is fixed here as written. -/
def optionalInitKeys : List Chars :=
  ["ignore_input_nodes".toList, "wedgenum".toList, "wedge_node".toList]

/-- The Action built for an init or run key: the name, with a payload
binding the name to the value from the payload data. -/
def mkDataAction (k : Chars) (v : Value) : Action := ⟨k, [(k, v)]⟩

/-- The required-keys loop of _populate_action_queue: enqueue one action
per key in declared order; a key absent from init_data raises KeyError,
leaving the actions already enqueued. -/
def enqueueRequired (init : List (Chars × Value)) :
    List Chars → AdaptorState → AdaptorState × Option Exc
  | [], s => (s, none)
  | k :: rest, s =>
    match lookupKey init k with
    | none => (s, some (.keyErr k))
    | some v => enqueueRequired init rest
        (enqueueAction s (mkDataAction k v) false)

/-- The optional-keys loop of _populate_action_queue: enqueue one action
per optional key present in init_data. -/
def enqueueOptional (init : List (Chars × Value)) :
    List Chars → AdaptorState → AdaptorState
  | [], s => s
  | k :: rest, s =>
    match lookupKey init k with
    | none => enqueueOptional init rest s
    | some v => enqueueOptional init rest
        (enqueueAction s (mkDataAction k v) false)

/-- _populate_action_queue: required keys in declared order, then the
optional keys present in init_data. -/
def populate_action_queue (init : List (Chars × Value))
    (s : AdaptorState) : AdaptorState × Option Exc :=
  match enqueueRequired init requiredInitKeys s with
  | (s2, some e) => (s2, some e)
  | (s2, none) => (enqueueOptional init optionalInitKeys s2, none)

/-- One observation of the startup wait loop condition: whether the
client process was running, the exception staged by the reader thread
if any, the action queue length, and whether the 300 second timer had
fired. -/
structure StartObs where
  running : Bool
  exc : Option Exc
  qlen : Nat
  timedOut : Bool
deriving DecidableEq, Repr

def startTimeoutErr : Exc :=
  .timeoutErr ("Houdini did not complete initialization actions in " ++
    "300 seconds and failed to start.").toList

def startFailErr : Exc :=
  .runtimeErr ("Houdini encountered an error and was not able to " ++
    "complete initialization actions.").toList

/-- The startup wait loop of on_start: while the client is running, no
exception is staged (checking re-raises a staged one), and the queue is
non-empty, raise TimeoutError once the timer fires, else keep polling.
Reports the queue length observed when the condition turned false, or
none when the schedule ends before the loop settles. -/
def startup_wait : List StartObs → Option (Except Exc Nat)
  | [] => none
  | o :: rest =>
    if o.running then
      match o.exc with
      | some e => some (.error e)
      | none =>
        if o.qlen > 0 then
          if o.timedOut then some (.error startTimeoutErr)
          else startup_wait rest
        else some (.ok o.qlen)
    else some (.ok o.qlen)

/-- The check after the startup wait loop: a still non-empty queue is
the initialization-failure RuntimeError. -/
def finish_start (r : Except Exc Nat) : Except Exc Unit :=
  match r with
  | .error e => .error e
  | .ok q => if q > 0 then .error startFailErr else .ok ()

/-- The inputs of on_start that the environment controls: whether the
server published its socket path within its timeout, and the startup
wait observations. -/
structure StartSched where
  socketOk : Bool
  waitObs : List StartObs
deriving Repr

def socketErr : Exc :=
  .runtimeErr ("Could not find a socket because the server did not " ++
    "finish initializing").toList

/-- on_start: validate init_data (the schema validator is an external
component; modelled as a no-op), report initial status, start the
server thread and wait for its socket, populate the action queue from
init_data, spawn the client, busy-wait for the queue to drain, and
raise if it did not.  The result is the final state paired with the
raised exception, if any; none when the wait schedule is undecided. -/
def on_start (init : List (Chars × Value)) (sch : StartSched)
    (s : AdaptorState) : Option (AdaptorState × Option Exc) :=
  let s1 := updateStatusMsg s 0 "Initializing Houdini".toList
  if !sch.socketOk then some (s1, some socketErr)
  else
    let s2 := { s1 with serverUp := true }
    match populate_action_queue init s2 with
    | (s3, some e) => some (s3, some e)
    | (s3, none) =>
      let s4 := { s3 with houdiniClient := some ⟨true, none⟩ }
      match startup_wait sch.waitObs with
      | none => none
      | some r =>
        match finish_start r with
        | .error e => some (s4, some e)
        | .ok _ => some (s4, none)

/-- One observation of the render wait loop condition in on_run. -/
structure RunObs where
  running : Bool
  rendering : Bool
  exc : Option Exc
  retcode : Int
deriving DecidableEq, Repr

/-- The render wait loop of on_run: while the client is running and the
rendering flag is set, re-raise a staged exception, else keep polling.
Reports the observation at which the condition turned false, or none
when the schedule ends before the loop settles. -/
def render_wait : List RunObs → Option (Except Exc RunObs)
  | [] => none
  | o :: rest =>
    if o.running && o.rendering then
      match o.exc with
      | some e => some (.error e)
      | none => render_wait rest
    else some (.ok o)

def notRunningErr : Exc :=
  .notRunning "Cannot render because Houdini is not running.".toList

/-- The HoudiniNotRunningError message raised when the client exits
during the render wait, embedding its exit code. -/
def exitEarlyMsg (retcode : Int) : Chars :=
  ("Houdini exited early and did not render successfully, please " ++
   "check render logs. Exit code ").toList ++ intToChars retcode

def frameKey : Chars := "frame".toList

/-- on_run: raise HoudiniNotRunningError when no client is attached or
it is not running; coerce the frame entry of run_data to an integer in
place (KeyError when absent, ValueError or TypeError when not
coercible); validate run_data (external validator, modelled as a
no-op); set the rendering flag; enqueue the frame action and the
start_render action; busy-wait for the render; raise when the client
exited during the wait.  The result is the final state, the final
run_data mapping, and the raised exception if any; none when the wait
schedule is undecided. -/
def on_run (s : AdaptorState) (rd : List (Chars × Value))
    (sch : List RunObs) :
    Option (AdaptorState × List (Chars × Value) × Option Exc) :=
  if !houdiniIsRunning s then some (s, rd, some notRunningErr)
  else
    match lookupKey rd frameKey with
    | none => some (s, rd, some (.keyErr frameKey))
    | some v =>
      match pyInt v with
      | .error e => some (s, rd, some e)
      | .ok n =>
        let rd2 := setKey rd frameKey (.vInt n)
        let s2 := { s with isRendering := true }
        let s3 :=
          match lookupKey rd2 frameKey with
          | some fv => enqueueAction s2 (mkDataAction frameKey fv) false
          | none => s2
        match lookupKey rd2 frameKey with
        | none => some (s3, rd2, some (.keyErr frameKey))
        | some fv =>
          let s4 := enqueueAction s3
            ⟨"start_render".toList, [(frameKey, fv)]⟩ false
          match render_wait sch with
          | none => none
          | some (.error e) => some (s4, rd2, some e)
          | some (.ok o) =>
            if !o.running && s4.houdiniClient.isSome then
              some (s4, rd2, some (.notRunning (exitEarlyMsg o.retcode)))
            else some (s4, rd2, none)

/-- One observation of the cleanup wait loop condition. -/
structure CleanupObs where
  running : Bool
  timedOut : Bool
deriving DecidableEq, Repr

/-- The cleanup wait loop: while the client is running and the 30
second timer has not fired, keep polling.  Reports the running status
observed when the loop exited, or none when the schedule ends before
the loop settles. -/
def cleanup_wait : List CleanupObs → Option Bool
  | [] => none
  | o :: rest =>
    if o.running && !o.timedOut then cleanup_wait rest
    else some o.running

/-- The environment inputs of on_cleanup: the wait observations and the
liveness of the server thread before and after the join. -/
structure CleanupSched where
  waitObs : List CleanupObs
  threadAliveAtJoin : Bool
  threadAliveAfterJoin : Bool
deriving Repr

def terminateLogMsg : Chars :=
  ("Houdini did not complete cleanup actions and failed to gracefully " ++
   "shutdown. Terminating.").toList

def joinFailLogMsg : Chars :=
  "Failed to shutdown the Houdini Adaptor server.".toList

def closeAction : Action := ⟨"close".toList, []⟩

/-- on_cleanup: set the cleanup flag (suppressing re-raise of any
staged exception for the duration), enqueue a close action at the
front, wait up to the timeout for the client to exit, force-terminate
it when still running (logging), shut the server down, join the server
thread and log when it fails to join, then clear the cleanup flag.  It
raises nothing; the result pairs the final state with the log messages
emitted; none when the wait schedule is undecided. -/
def on_cleanup (s : AdaptorState) (sch : CleanupSched) :
    Option (Except Exc (AdaptorState × List Chars)) :=
  let s1 := { s with performingCleanup := true }
  let s2 := enqueueAction s1 closeAction true
  match cleanup_wait sch.waitObs with
  | none => none
  | some stillRunning =>
    let step :=
      if stillRunning && s2.houdiniClient.isSome then
        ({ s2 with houdiniClient :=
            s2.houdiniClient.map (fun c => { c with isRunning := false }) },
         [terminateLogMsg])
      else (s2, ([] : List Chars))
    let s3 := step.1
    let s4 := if s3.serverUp then { s3 with serverUp := false } else s3
    let logs2 :=
      if sch.threadAliveAtJoin && sch.threadAliveAfterJoin then
        [joinFailLogMsg]
      else []
    some (.ok ({ s4 with performingCleanup := false }, step.2 ++ logs2))

/-! Helper lemmas. -/

theorem digit_ne_space {c : Char} (h : c.isDigit = true) : c ≠ ' ' := by
  intro hc; subst hc; exact absurd h (by decide)

theorem digit_ne_percent {c : Char} (h : c.isDigit = true) : c ≠ '%' := by
  intro hc; subst hc; exact absurd h (by decide)

theorem digit_ne_minus {c : Char} (h : c.isDigit = true) : c ≠ '-' := by
  intro hc; subst hc; exact absurd h (by decide)

theorem digit_ne_plus {c : Char} (h : c.isDigit = true) : c ≠ '+' := by
  intro hc; subst hc; exact absurd h (by decide)

theorem dropWhileSpace_eq_self (l : Chars) (h : ∀ c ∈ l, c.isDigit = true) :
    l.dropWhile (fun c => c = ' ') = l := by
  cases l with
  | nil => rfl
  | cons a t =>
    have ha : a ≠ ' ' := digit_ne_space (h a (by simp))
    simp [List.dropWhile_cons, ha]

theorem stripSpaces_digits (l : Chars) (h : ∀ c ∈ l, c.isDigit = true) :
    stripSpaces l = l := by
  unfold stripSpaces
  rw [dropWhileSpace_eq_self l h,
    dropWhileSpace_eq_self l.reverse
      (fun c hc => h c (List.mem_reverse.mp hc)),
    List.reverse_reverse]

theorem pyIntOfStr_digits (l : Chars) (hne : l ≠ [])
    (h : ∀ c ∈ l, c.isDigit = true) :
    pyIntOfStr l = .ok (digitsVal l : Int) := by
  cases l with
  | nil => exact absurd rfl hne
  | cons a t =>
    have h1 : a ≠ '-' := digit_ne_minus (h a (by simp))
    have h2 : a ≠ '+' := digit_ne_plus (h a (by simp))
    have h3 : (a :: t).all Char.isDigit = true := by
      rw [List.all_eq_true]; exact h
    simp [pyIntOfStr, stripSpaces_digits _ h, h1, h2, h3]

theorem drop_after_marker (pre mid rest : Chars) :
    (pre ++ mid ++ rest).drop (pre.length + mid.length) = rest := by
  rw [← List.length_append pre mid, List.drop_left]

theorem lookupKey_setKey (d : List (Chars × Value)) (k : Chars) (v : Value) :
    lookupKey (setKey d k v) k = some v := by
  induction d with
  | nil => simp [setKey, lookupKey]
  | cons p rest ih =>
    obtain ⟨k2, v2⟩ := p
    by_cases h : k2 = k
    · simp [setKey, lookupKey, h]
    · simp [setKey, lookupKey, h, ih]

theorem enqueueOptional_spec (init : List (Chars × Value))
    (ks : List Chars) (s : AdaptorState) :
    enqueueOptional init ks s =
      { s with actionQueue := s.actionQueue ++
          ks.filterMap (fun k => (lookupKey init k).map (mkDataAction k)) } := by
  induction ks generalizing s with
  | nil => simp [enqueueOptional]
  | cons k rest ih =>
    cases hl : lookupKey init k with
    | none => simp [enqueueOptional, hl, ih]
    | some v => simp [enqueueOptional, hl, ih, enqueueAction]

theorem populate_spec (init : List (Chars × Value)) (s : AdaptorState)
    (sf rn : Value)
    (h1 : lookupKey init "scene_file".toList = some sf)
    (h2 : lookupKey init "render_node".toList = some rn) :
    populate_action_queue init s =
      ({ s with actionQueue := s.actionQueue ++
          ([mkDataAction "scene_file".toList sf,
            mkDataAction "render_node".toList rn] ++
           optionalInitKeys.filterMap
             (fun k => (lookupKey init k).map (mkDataAction k))) }, none) := by
  simp only [populate_action_queue, requiredInitKeys, enqueueRequired,
    h1, h2, enqueueOptional_spec, enqueueAction]
  simp [List.append_assoc]

/-! Claim theorems. -/

/-- C3: for every output line whose first progress-marker occurrence is
followed by a one- or two-digit percentage and a percent sign, the
progress handler reports exactly the integer the digits denote: the
trailing percent sign of a single-digit capture is stripped, never
concatenated into the number. -/
theorem c3_progress_reports_matched_digits
    (pre suf ds : Chars) (n : Nat) (s : AdaptorState)
    (hexc : s.excInfo = none)
    (hidx : firstIndexOf progressMarker
      (pre ++ progressMarker ++ (ds ++ '%' :: suf)) = some pre.length)
    (hlen : ds.length = 1 ∨ ds.length = 2)
    (hdig : ∀ c ∈ ds, c.isDigit = true)
    (hval : digitsVal ds = n) :
    handle_progress (pre ++ progressMarker ++ (ds ++ '%' :: suf)) s =
      .ok { s with progress := some (n : Int) } := by
  have hdrop := drop_after_marker pre progressMarker (ds ++ '%' :: suf)
  have hs : hasException s = .ok false := by simp [hasException, hexc]
  rcases hlen with hlen | hlen
  · obtain ⟨d, rfl⟩ := List.length_eq_one.mp hlen
    have hd : d.isDigit = true := hdig d (by simp)
    have hpy : pyIntOfStr [d] = .ok (digitsVal [d] : Int) :=
      pyIntOfStr_digits [d] (by simp) hdig
    simp only [handle_progress, checkForException, hs,
      handle_progress_core, hidx, hdrop]
    simp only [List.cons_append, List.nil_append, List.take_succ_cons,
      List.take_zero]
    simp [hpy, hval, updateStatusProgress]
  · obtain ⟨d1, d2, rfl⟩ := List.length_eq_two.mp hlen
    have hd2 : d2.isDigit = true := hdig d2 (by simp)
    have hne2 : d2 ≠ '%' := digit_ne_percent hd2
    have hpy : pyIntOfStr [d1, d2] = .ok (digitsVal [d1, d2] : Int) :=
      pyIntOfStr_digits [d1, d2] (by simp) hdig
    simp only [handle_progress, checkForException, hs,
      handle_progress_core, hidx, hdrop]
    simp only [List.cons_append, List.nil_append, List.take_succ_cons,
      List.take_zero]
    simp [hne2, hpy, hval, updateStatusProgress]

/-- C3 witness: the line "ALF_PROGRESS 10%" reports progress 10 and the
line "ALF_PROGRESS 5%" reports progress 5. -/
theorem c3_progress_reports_matched_digits_witness :
    handle_progress "ALF_PROGRESS 10%".toList initialState =
      .ok { initialState with progress := some 10 } ∧
    handle_progress "ALF_PROGRESS 5%".toList initialState =
      .ok { initialState with progress := some 5 } := by
  constructor
  · exact c3_progress_reports_matched_digits [] [] ['1', '0'] 10
      initialState rfl (by decide) (Or.inr rfl) (by decide) (by decide)
  · exact c3_progress_reports_matched_digits [] [] ['5'] 5
      initialState rfl (by decide) (Or.inl rfl) (by decide) (by decide)

/-- C4 counterexample: with a pending exception already staged and
cleanup not in progress, the fatal-error handler runs and overwrites
the pending-exception slot, so the claim that no subsequent
fatal-error or license-error handler writes the slot again is false at
this input. -/
theorem c4_first_fatal_wins_counterexample :
    handle_error "Error: second".toList
        { initialState with excInfo := some (.runtimeErr "first".toList) } =
      .ok { initialState with excInfo := some (.runtimeErr "Houdini Encountered an Error: Error: second".toList) } ∧
    some (Exc.runtimeErr
        "Houdini Encountered an Error: Error: second".toList) ≠
      some (Exc.runtimeErr "first".toList) :=
  ⟨rfl, by decide⟩

/-- C4 amended: only the completion and progress handlers are guarded by
the pending-exception check (the guard re-raises the staged exception
instead of running them); the fatal-error and license-error handlers
are unguarded, so a subsequent fatal condition overwrites the
pending-exception slot and the last fatal condition wins. -/
theorem c4_guard_covers_complete_and_progress
    (s : AdaptorState) (e : Exc) (line : Chars) (free : Nat)
    (hexc : s.excInfo = some e) (hcl : s.performingCleanup = false) :
    handle_complete s = .error e ∧
    handle_progress line s = .error e ∧
    handle_error line s =
      .ok { s with excInfo := some (.runtimeErr (errMsgStart ++ line)) } ∧
    handle_license_error free line s =
      .ok { s with excInfo := some (.runtimeErr (license_error_msg line free)) } := by
  refine ⟨?_, ?_, rfl, rfl⟩
  · simp [handle_complete, checkForException, hasException, hexc, hcl]
  · simp [handle_progress, checkForException, hasException, hexc, hcl]

/-- C4 amended witness at a concrete pending exception. -/
theorem c4_guard_covers_complete_and_progress_witness :
    handle_complete
        { initialState with excInfo := some (.runtimeErr "x".toList) } =
      .error (.runtimeErr "x".toList) :=
  (c4_guard_covers_complete_and_progress
    { initialState with excInfo := some (.runtimeErr "x".toList) }
    (.runtimeErr "x".toList) [] 0 rfl rfl).1

/-- C5: classifying the line "Error: boom" with strict error checking
off leaves the state untouched (in particular the pending-exception
slot unset), while with strict error checking on it returns normally
(no exception raised on the reader thread) and stages exactly
"Houdini Encountered an Error: Error: boom". -/
theorem c5_strict_error_checking_gate (free : Nat) (s : AdaptorState) :
    dispatch_line (get_regex_callbacks false free)
      "Error: boom".toList s = .ok s ∧
    dispatch_line (get_regex_callbacks true free)
      "Error: boom".toList s =
      .ok { s with excInfo := some (.runtimeErr "Houdini Encountered an Error: Error: boom".toList) } :=
  ⟨rfl, rfl⟩

/-- C6: a line matching the license-failure marker stages the
license-error message regardless of the strict-error-checking setting,
and for every non-negative free-disk-byte count the staged message
embeds the free space in MiB (the byte count floor-divided by 1024
twice, a natural number). -/
theorem c6_license_error_always_sets_slot
    (strict : Bool) (free : Nat) (s : AdaptorState) :
    dispatch_line (get_regex_callbacks strict free) licenseMarker s =
      .ok { s with excInfo := some (.runtimeErr (license_error_msg licenseMarker free)) } ∧
    natToChars (free / 1024 / 1024) <:+:
      license_error_msg licenseMarker free := by
  constructor
  · cases strict <;> rfl
  · refine ⟨licenseMarker ++ "\n".toList ++
      ("This error is typically associated with a licensing error" ++
       " when using Houdini. Check your licensing configuration.\n").toList ++
      "Free disc space: ".toList, "M\n".toList, ?_⟩
    simp [license_error_msg, List.append_assoc]

/-- C7: the code contradicts the intent visible in its own version
pattern.  The pattern makes the patch group optional, so a
"MAJOR.MINOR" line matches with group 2 equal to None; the handler
then tests the constant length of the groups tuple instead of whether
group 2 participated, and appending None to a string raises TypeError.
A "MAJOR.MINOR.PATCH" line is recorded correctly, but a "MAJOR.MINOR"
line makes the handler raise instead of recording the version. -/
theorem c7_version_handler_raises_on_two_part_version :
    version_match "HoudiniClient: Houdini Version 19.5".toList =
      some ⟨"19.5".toList, none⟩ ∧
    handle_houdini_version ⟨"19.5".toList, none⟩ initialState =
      .error (.typeErr
        "can only concatenate str (not NoneType) to str".toList) ∧
    version_match "HoudiniClient: Houdini Version 19.5.435".toList =
      some ⟨"19.5".toList, some ".435".toList⟩ ∧
    handle_houdini_version ⟨"19.5".toList, some ".435".toList⟩
        initialState =
      .ok { initialState with houdiniVersion := "19.5.435".toList } :=
  ⟨by decide, rfl, by decide, rfl⟩

/-- C8: calling on_run while no subprocess is attached or the attached
subprocess is not running raises HoudiniNotRunningError immediately,
with the state returned exactly as it was (no action enqueued, the
rendering flag unchanged), and that error is a kind distinct from the
RuntimeError and TimeoutError fatal kinds. -/
theorem c8_on_run_requires_running_client (s : AdaptorState)
    (rd : List (Chars × Value)) (sch : List RunObs)
    (h : houdiniIsRunning s = false) :
    on_run s rd sch = some (s, rd, some notRunningErr) ∧
    (∀ m1 m2 : Chars, Exc.notRunning m1 ≠ Exc.runtimeErr m2) ∧
    (∀ m1 m2 : Chars, Exc.notRunning m1 ≠ Exc.timeoutErr m2) := by
  refine ⟨by simp [on_run, h], ?_, ?_⟩ <;>
    exact fun m1 m2 hc => Exc.noConfusion hc

/-- C8 witness: on_run on a fresh state with no client attached. -/
theorem c8_on_run_requires_running_client_witness :
    on_run initialState [] [] =
      some (initialState, [], some notRunningErr) :=
  (c8_on_run_requires_running_client initialState [] [] rfl).1

/-- C10: with a running client, a missing frame key or a frame value
that does not coerce to an integer makes on_run raise before the
rendering flag is set and before any action is enqueued (the state and
run data are returned exactly as they were); when coercion succeeds,
the frame entry of the run data mapping is mutated in place to the
coerced integer. -/
theorem c10_on_run_frame_coercion (s : AdaptorState)
    (rd : List (Chars × Value)) (sch : List RunObs)
    (hrun : houdiniIsRunning s = true) :
    (lookupKey rd frameKey = none →
      on_run s rd sch = some (s, rd, some (.keyErr frameKey))) ∧
    (∀ v e, lookupKey rd frameKey = some v → pyInt v = .error e →
      on_run s rd sch = some (s, rd, some e)) ∧
    (∀ v n r, lookupKey rd frameKey = some v → pyInt v = .ok n →
      on_run s rd sch = some r →
      r.2.1 = setKey rd frameKey (.vInt n) ∧
      lookupKey r.2.1 frameKey = some (.vInt n)) := by
  refine ⟨?_, ?_, ?_⟩
  · intro hl; simp [on_run, hrun, hl]
  · intro v e hl hp; simp [on_run, hrun, hl, hp]
  · intro v n r hl hp hr
    have hsk := lookupKey_setKey rd frameKey (.vInt n)
    simp only [on_run, hrun, Bool.not_true, Bool.false_eq_true, if_false,
      hl, hp, hsk] at hr
    rcases hw : render_wait sch with _ | er
    · simp only [hw] at hr
      exact Option.noConfusion hr
    · rcases er with e2 | o
      · simp only [hw, Option.some.injEq] at hr
        subst hr
        exact ⟨rfl, hsk⟩
      · simp only [hw] at hr
        split at hr <;>
          (simp only [Option.some.injEq] at hr; subst hr; exact ⟨rfl, hsk⟩)

/-- C10 witness: with a running client and no frame key, on_run raises
KeyError leaving the state and run data untouched. -/
theorem c10_on_run_frame_coercion_witness :
    on_run { initialState with houdiniClient := some ⟨true, none⟩ } [] [] =
      some ({ initialState with houdiniClient := some ⟨true, none⟩ },
        [], some (.keyErr frameKey)) :=
  (c10_on_run_frame_coercion
    { initialState with houdiniClient := some ⟨true, none⟩ } [] [] rfl).1 rfl

/-- C2: at any poll of the startup wait with the queue non-empty, when
the subprocess is observed alive with no staged exception and the
timer has fired, the wait raises the startup TimeoutError; when the
subprocess is observed not alive, the wait exits and the post-loop
check raises the initialization-failure RuntimeError; the two
exceptions are distinct values of distinct kinds. -/
theorem c2_startup_timeout_vs_death (o : StartObs) (rest : List StartObs)
    (hq : 0 < o.qlen) :
    (o.running = true → o.exc = none → o.timedOut = true →
      startup_wait (o :: rest) = some (.error startTimeoutErr)) ∧
    (o.running = false →
      startup_wait (o :: rest) = some (.ok o.qlen) ∧
      finish_start (.ok o.qlen) = .error startFailErr) ∧
    startTimeoutErr ≠ startFailErr := by
  refine ⟨?_, ?_, by decide⟩
  · intro h1 h2 h3; simp [startup_wait, h1, h2, h3, hq]
  · intro h1
    exact ⟨by simp [startup_wait, h1], by simp [finish_start, hq]⟩

/-- C2 witness: a timed-out poll with the client alive yields the
TimeoutError, and a poll observing a dead client yields loop exit with
a non-empty queue, which the post-loop check turns into the
initialization-failure RuntimeError. -/
theorem c2_startup_timeout_vs_death_witness :
    startup_wait [⟨true, none, 1, true⟩] =
      some (.error startTimeoutErr) ∧
    startup_wait [⟨false, none, 1, false⟩] = some (.ok 1) ∧
    finish_start (.ok 1) = .error startFailErr := by
  refine ⟨?_, ?_, ?_⟩
  · exact (c2_startup_timeout_vs_death ⟨true, none, 1, true⟩ []
      (by decide)).1 rfl rfl rfl
  · exact ((c2_startup_timeout_vs_death ⟨false, none, 1, false⟩ []
      (by decide)).2.1 rfl).1
  · exact ((c2_startup_timeout_vs_death ⟨false, none, 1, false⟩ []
      (by decide)).2.1 rfl).2

/-- C1: with both required init keys present, _populate_action_queue
enqueues exactly one action per required key in declared order
followed by one action per optional key present in init_data, and
on_start returns normally only when the startup wait observed the
queue drained to length 0; when a required key is absent, on_start
raises KeyError for a missing key before any subprocess is spawned. -/
theorem c1_on_start_populates_and_drains
    (init : List (Chars × Value)) (sch : StartSched) (sf rn : Value)
    (h1 : lookupKey init "scene_file".toList = some sf)
    (h2 : lookupKey init "render_node".toList = some rn) :
    (populate_action_queue init initialState).1.actionQueue =
      [mkDataAction "scene_file".toList sf,
       mkDataAction "render_node".toList rn] ++
      optionalInitKeys.filterMap
        (fun k => (lookupKey init k).map (mkDataAction k)) ∧
    (populate_action_queue init initialState).2 = none ∧
    (∀ s2, on_start init sch initialState = some (s2, none) →
      startup_wait sch.waitObs = some (.ok 0)) ∧
    (∀ init2 sch2, sch2.socketOk = true →
      (lookupKey init2 "scene_file".toList = none ∨
       lookupKey init2 "render_node".toList = none) →
      ∃ s2 k, on_start init2 sch2 initialState =
          some (s2, some (.keyErr k)) ∧
        lookupKey init2 k = none ∧ s2.houdiniClient = none) := by
  have hp0 := populate_spec init initialState sf rn h1 h2
  refine ⟨?_, ?_, ?_, ?_⟩
  · rw [hp0]; simp [initialState]
  · rw [hp0]
  · intro s2 hstart
    cases hsock : sch.socketOk with
    | false => simp [on_start, hsock] at hstart
    | true =>
      have hp2 := populate_spec init
        { updateStatusMsg initialState 0 "Initializing Houdini".toList
          with serverUp := true } sf rn h1 h2
      simp only [on_start, hsock, Bool.not_true, Bool.false_eq_true,
        if_false, hp2] at hstart
      rcases hw : startup_wait sch.waitObs with _ | r
      · rw [hw] at hstart; cases hstart
      · rw [hw] at hstart
        rcases r with e | q
        · simp [finish_start] at hstart
        · rcases q with _ | q2
          · rfl
          · simp [finish_start] at hstart
  · intro init2 sch2 hs hmiss
    rcases hsc : lookupKey init2 "scene_file".toList with _ | v
    · refine ⟨{ updateStatusMsg initialState 0
          "Initializing Houdini".toList with serverUp := true },
        "scene_file".toList, ?_, hsc, rfl⟩
      simp only [on_start, hs, Bool.not_true, Bool.false_eq_true,
        if_false, populate_action_queue, requiredInitKeys,
        enqueueRequired, hsc]
    · have hrc : lookupKey init2 "render_node".toList = none := by
        rcases hmiss with hmx | hmx
        · rw [hsc] at hmx; cases hmx
        · exact hmx
      refine ⟨enqueueAction { updateStatusMsg initialState 0
          "Initializing Houdini".toList with serverUp := true }
          (mkDataAction "scene_file".toList v) false,
        "render_node".toList, ?_, hrc, rfl⟩
      simp only [on_start, hs, Bool.not_true, Bool.false_eq_true,
        if_false, populate_action_queue, requiredInitKeys,
        enqueueRequired, hsc, hrc]

/-- C1 witness: a concrete init payload with both required keys and one
optional key present. -/
theorem c1_on_start_populates_and_drains_witness :
    (populate_action_queue
      [("scene_file".toList, Value.vStr ['a']),
       ("render_node".toList, Value.vStr ['b']),
       ("wedgenum".toList, Value.vInt 2)] initialState).1.actionQueue =
      [mkDataAction "scene_file".toList (Value.vStr ['a']),
       mkDataAction "render_node".toList (Value.vStr ['b'])] ++
      optionalInitKeys.filterMap
        (fun k => (lookupKey
          [("scene_file".toList, Value.vStr ['a']),
           ("render_node".toList, Value.vStr ['b']),
           ("wedgenum".toList, Value.vInt 2)] k).map (mkDataAction k)) :=
  (c1_on_start_populates_and_drains
    [("scene_file".toList, Value.vStr ['a']),
     ("render_node".toList, Value.vStr ['b']),
     ("wedgenum".toList, Value.vInt 2)]
    ⟨true, []⟩ (Value.vStr ['a']) (Value.vStr ['b']) rfl rfl).1

/-- C9: on_cleanup returns normally on every decided schedule: the
cleanup flag is cleared at the end, the failure of the client to exit
within the cleanup timeout is logged (and the client terminated), the
failure of the server thread to join within its timeout is logged, and
a staged pending exception is suppressed while the cleanup flag is
set. -/
theorem c9_cleanup_never_raises (s : AdaptorState) (sch : CleanupSched)
    (r : Bool) (hw : cleanup_wait sch.waitObs = some r) :
    (∃ s2 logs, on_cleanup s sch = some (.ok (s2, logs)) ∧
      s2.performingCleanup = false ∧
      (r = true → s.houdiniClient.isSome = true →
        terminateLogMsg ∈ logs) ∧
      (sch.threadAliveAtJoin = true → sch.threadAliveAfterJoin = true →
        joinFailLogMsg ∈ logs)) ∧
    hasException { s with performingCleanup := true } = .ok false := by
  constructor
  · simp only [on_cleanup, hw]
    refine ⟨_, _, rfl, rfl, ?_, ?_⟩
    · intro hr hcl
      simp [hr, hcl, enqueueAction]
    · intro h1 h2
      simp [h1, h2]
  · cases hsi : s.excInfo <;> simp [hasException, hsi]

/-- C9 witness: a schedule on which the client exited at once and the
server thread joined. -/
theorem c9_cleanup_never_raises_witness :
    hasException { initialState with performingCleanup := true } =
      .ok false :=
  (c9_cleanup_never_raises initialState ⟨[⟨false, false⟩], false, false⟩
    false rfl).2

end HoudiniAdaptorModel
